import Mathlib

/-!
Shallow embedding of the taxi-fare-website Streamlit application
(`src/app.py`).  Coordinates and JSON numbers are modelled as exact
rationals, the network is modelled as an explicit responder function from
request URLs to responses, and each Streamlit handler becomes a pure
function from the session state and the responder to a record of its
observable effects (requests issued, messages displayed, state written).
-/

namespace TaxiFare

/-- Exceptions that the embedded Python fragments can raise:
`typeError` models `float(None)`, `valueError` models a failed tuple
unpacking such as `lon, lat = center` on a list whose length is not 2. -/
inductive PyError where
  | typeError
  | valueError
deriving DecidableEq, Repr

/-- Python truthiness of an optional float: `None` and `0.0` are falsy,
every other float is truthy.  Used by `if pickup_lat and dropoff_lat:`
(app.py line 105). -/
def pyTruthy : Option ℚ → Bool
  | none => false
  | some q => q != 0

/-- Safe byte test for `urllib.parse.quote` with its default `safe="/"`:
ASCII letters, digits, the characters `_ . - ~`, and `/` stay unescaped. -/
def quoteSafe (b : UInt8) : Bool :=
  (65 ≤ b.toNat && b.toNat ≤ 90) || (97 ≤ b.toNat && b.toNat ≤ 122) ||
  (48 ≤ b.toNat && b.toNat ≤ 57) ||
  b.toNat = 45 || b.toNat = 46 || b.toNat = 95 || b.toNat = 126 || b.toNat = 47

/-- One hexadecimal digit, uppercase, as `urllib.parse.quote` emits. -/
def hexDigit (n : Nat) : Char :=
  if n < 10 then Char.ofNat (48 + n) else Char.ofNat (55 + n)

/-- Model of `urllib.parse.quote`: percent-encode every UTF-8 byte outside
the safe set (app.py lines 50, 66). -/
def pyQuote (s : String) : String :=
  String.join <| s.toUTF8.toList.map fun b =>
    if quoteSafe b then String.singleton (Char.ofNat b.toNat)
    else "%" ++ String.singleton (hexDigit (b.toNat / 16)) ++
      String.singleton (hexDigit (b.toNat % 16))

/-- The Mapbox access token constant (app.py line 46). -/
def mapbox_access_token : String :=
  "pk.eyJ1Ijoia3Jva3JvYiIsImEiOiJja2YzcmcyNDkwNXVpMnRtZGwxb2MzNWtvIn0.69leM_6Roh26Ju7Lqb2pwQ"

/-- One candidate feature of a Mapbox geocoding response: a display name
and a center list, longitude first. -/
structure GeoFeature where
  place_name : String
  center : List ℚ
deriving DecidableEq, Repr

/-- A Mapbox geocoding HTTP response, with the JSON body already parsed:
`features = none` models a JSON object without a `features` key. -/
structure GeoResponse where
  status_code : Nat
  features : Option (List GeoFeature)
deriving DecidableEq, Repr

/-- The URL built by `get_coordinates` (app.py line 51). -/
def geocodeURL (location : String) : String :=
  "https://api.mapbox.com/geocoding/v5/mapbox.places/" ++ pyQuote location ++
    ".json?access_token=" ++ mapbox_access_token ++ "&limit=10"

/-- Model of `get_coordinates` (app.py lines 48-59): issue one geocoding
request; on HTTP 200 with a nonempty feature list, unpack the first center
as `lon, lat` and return `(lat, lon)`; otherwise return `(None, None)`.
The `Except` layer records the one statement that can raise: unpacking a
center whose length is not 2. -/
def get_coordinates (location : String) (net : String → GeoResponse) :
    Except PyError (Option ℚ × Option ℚ) :=
  let response := net (geocodeURL location)
  if response.status_code = 200 then
    match response.features with
    | some (f :: _) =>
      match f.center with
      | [lon, lat] => .ok (some lat, some lon)
      | _ => .error .valueError
    | _ => .ok (none, none)
  else .ok (none, none)

/-- The URL built by `get_suggestions` (app.py line 66). -/
def suggestURL (query : String) : String :=
  "https://api.mapbox.com/geocoding/v5/mapbox.places/" ++ pyQuote query ++
    ".json?access_token=" ++ mapbox_access_token ++ "&limit=25&country=us&types=address"

/-- Observable effects of one `get_suggestions` call: the returned list of
place names and the list of requests actually issued. -/
structure SuggestRun where
  suggestions : List String
  requests : List String
deriving DecidableEq, Repr

/-- Model of `get_suggestions` (app.py lines 61-79): an empty query
returns `[]` before any URL is built or any request is sent; otherwise one
request is issued, and on HTTP 200 the place names of `features`
(defaulting to the empty list when the key is absent) are returned, on any
other status the empty list is returned. -/
def get_suggestions (query : String) (net : String → GeoResponse) : SuggestRun :=
  if query = "" then { suggestions := [], requests := [] }
  else
    let url := suggestURL query
    let response := net url
    if response.status_code = 200 then
      { suggestions := (response.features.getD []).map GeoFeature.place_name,
        requests := [url] }
    else { suggestions := [], requests := [url] }

/-- The per-session mutable fields used by the app: the two location text
fields and the four coordinate fields.  Coordinates are optional so that
an unresolved (null) value can be represented. -/
structure SessionState where
  pickup_location : String
  dropoff_location : String
  pickup_latitude : Option ℚ
  pickup_longitude : Option ℚ
  dropoff_latitude : Option ℚ
  dropoff_longitude : Option ℚ
deriving DecidableEq, Repr

deriving instance DecidableEq for Except

/-- A fare-endpoint HTTP response: status, raw body text, and the parsed
JSON object as an association list (`.error m` models `response.json()`
raising with message `m`). -/
structure FareResponse where
  status_code : Nat
  text : String
  json : Except String (List (String × ℚ))
deriving DecidableEq, Repr

/-- Result of one `requests.get` against the fare endpoint: either a
response or a transport-level exception with its message. -/
inductive FareNet where
  | ok (resp : FareResponse)
  | exn (msg : String)
deriving DecidableEq, Repr

/-- Membership test plus field access on a parsed JSON object, modelling
the pair `"fare" in result` / `result["fare"]` (app.py lines 162-163). -/
def jsonLookup (j : List (String × ℚ)) (k : String) : Option ℚ :=
  match j.find? (fun kv => kv.1 == k) with
  | some kv => some kv.2
  | none => none

/-- Floor of a rational, via flooring integer division. -/
def ratFloor (q : ℚ) : ℤ := q.num.fdiv q.den

/-- Round a rational to the nearest integer, ties to even: the rounding
used by Python `round` (modelled exactly on rationals).  With `f` the
floor and `rem` the nonnegative remainder, the fractional part `rem / den`
is compared against one half by comparing `2 * rem` with `den`. -/
def roundHalfEven (q : ℚ) : ℤ :=
  let f := ratFloor q
  let rem := q.num - f * (q.den : ℤ)
  if 2 * rem < (q.den : ℤ) then f
  else if (q.den : ℤ) < 2 * rem then f + 1
  else if f % 2 = 0 then f else f + 1

/-- Model of Python `round(x, 2)` on exact rationals. -/
def roundHalfEven2 (q : ℚ) : ℚ := Rat.divInt (roundHalfEven (q * 100)) 100

/-- Smallest exponent `k` with `d` dividing `10 ^ k`, when one exists
below the search bound (every IEEE double denominator is below it). -/
def denExp (d : Nat) : Option Nat :=
  (List.range 1100).find? fun k => 10 ^ k % d = 0

/-- Drop trailing zero characters. -/
def stripZeros (l : List Char) : List Char :=
  (l.reverse.dropWhile fun c => c = '0').reverse

/-- Pad a string on the left with zero characters up to length `k`. -/
def padLeftZeros (s : String) (k : Nat) : String :=
  String.mk (List.replicate (k - s.length) '0') ++ s

/-- Model of Python `str` on a float whose exact value is the given
rational: the terminating decimal expansion with trailing zeros stripped
and at least one fractional digit (`str(23.0) = "23.0"`). -/
def pyStr (q : ℚ) : String :=
  match denExp q.den with
  | some k =>
    let n : Int := q.num * ((10 ^ k : Nat) / q.den)
    let a : Nat := n.natAbs
    let ip : Nat := a / 10 ^ k
    let fracDigits := stripZeros (padLeftZeros (toString (a % 10 ^ k)) k).data
    let frac := if fracDigits.isEmpty then "0" else String.mk fracDigits
    (if n < 0 then "-" else "") ++ toString ip ++ "." ++ frac
  | none => toString q.num ++ "/" ++ toString q.den

/-- The `ride_data` dictionary (app.py lines 147-154) in insertion order,
each value already serialized the way the f-string interpolation
`f'{k}={v}'` renders it. -/
def ride_data (pickup_datetime : String) (plon plat dlon dlat : ℚ)
    (passenger_count : Nat) : List (String × String) :=
  [("pickup_datetime", pickup_datetime),
   ("pickup_longitude", pyStr plon),
   ("pickup_latitude", pyStr plat),
   ("dropoff_longitude", pyStr dlon),
   ("dropoff_latitude", pyStr dlat),
   ("passenger_count", toString passenger_count)]

/-- The fare request URL (app.py line 158): the endpoint, `?`, and the
`&`-joined `k=v` pairs of `ride_data`. -/
def fareURL (pickup_datetime : String) (plon plat dlon dlat : ℚ)
    (passenger_count : Nat) : String :=
  "https://taxifare.lewagon.ai/predict" ++ "?" ++
    String.intercalate "&"
      ((ride_data pickup_datetime plon plat dlon dlat passenger_count).map
        fun kv => kv.1 ++ "=" ++ kv.2)

/-- The branch taken by the Predict Fare handler, with the exact message
it displays: each constructor corresponds to one `st.success` / `st.error`
call site of app.py lines 160-170, and `crash` to an exception raised
outside the `try` block (a null coordinate under `float`). -/
inductive PredictOutcome where
  | success (fare : ℚ) (msg : String)
  | malformed (msg : String)
  | statusError (code : Nat) (body : String) (msg : String)
  | transport (msg : String)
  | crash (e : PyError)
deriving DecidableEq, Repr

/-- Observable effects of one press of the Predict Fare button: the fare
requests issued and the branch taken. -/
structure PredictRun where
  requests : List String
  outcome : PredictOutcome
deriving DecidableEq, Repr

/-- Model of the Predict Fare handler (app.py lines 144-170).  The four
`float(st.session_state[...])` conversions happen outside the `try`
block: if any coordinate is null they raise `TypeError` and no request is
built or sent.  Otherwise exactly one GET is issued; HTTP 200 with a
`fare` field displays the rounded fare, HTTP 200 without it displays the
missing-fare error, any other status displays the status code and body,
and a transport exception (or `response.json()` raising) is caught and
its message displayed. -/
def predictFare (s : SessionState) (pickup_datetime : String)
    (passenger_count : Nat) (net : String → FareNet) : PredictRun :=
  match s.pickup_longitude, s.pickup_latitude, s.dropoff_longitude, s.dropoff_latitude with
  | some plon, some plat, some dlon, some dlat =>
    let url := fareURL pickup_datetime plon plat dlon dlat passenger_count
    { requests := [url]
      outcome :=
        match net url with
        | .exn e => .transport ("Error: " ++ e)
        | .ok response =>
          if response.status_code = 200 then
            match response.json with
            | .error e => .transport ("Error: " ++ e)
            | .ok result =>
              match jsonLookup result "fare" with
              | some fare =>
                .success (roundHalfEven2 fare)
                  ("Predicted Fare: **$" ++ pyStr (roundHalfEven2 fare) ++ "**")
              | none => .malformed "Error: API response did not contain a fare value."
          else
            .statusError response.status_code response.text
              ("Error: " ++ toString response.status_code ++ " - " ++ response.text) }
  | _, _, _, _ => { requests := [], outcome := .crash .typeError }

/-- The test guarding the script-level warning (app.py line 123):
`None in [pickup_lat, pickup_lon, dropoff_lat, dropoff_lon]`. -/
def coordsMissing (s : SessionState) : Bool :=
  s.pickup_latitude.isNone || s.pickup_longitude.isNone ||
  s.dropoff_latitude.isNone || s.dropoff_longitude.isNone

/-- Observable effects of one script rerun (Update Locations not
pressed): the script-level coordinate warning of app.py line 124, and the
Predict Fare run when that button was the trigger. -/
structure ScriptRun where
  warning : Option String
  predict : Option PredictRun
deriving DecidableEq, Repr

/-- Model of one top-to-bottom script rerun (app.py lines 117-170,
Update Locations not pressed): first the null-coordinate warning is
rendered if any of the four session coordinates is null, then the Predict
Fare handler runs if its button was pressed. -/
def scriptRun (s : SessionState) (predictPressed : Bool)
    (pickup_datetime : String) (passenger_count : Nat)
    (net : String → FareNet) : ScriptRun :=
  { warning :=
      if coordsMissing s then
        some "Invalid location coordinates. Please update the locations."
      else none
    predict :=
      if predictPressed then some (predictFare s pickup_datetime passenger_count net)
      else none }

/-- Observable effects of one press of the Update Locations button: the
session state after the handler, the error message if any, and whether
`st.rerun()` was reached. -/
structure UpdateRun where
  state : SessionState
  errorMsg : Option String
  rerun : Bool
deriving DecidableEq, Repr

/-- Model of the Update Locations handler (app.py lines 101-115): resolve
both locations, then, if both latitudes are truthy, write all six session
fields and rerun; otherwise display the error and leave every session
field untouched.  The `Except` layer propagates an unpacking error raised
inside `get_coordinates`, in which case no field has been written
either. -/
def updateLocations (s : SessionState) (pickup_location dropoff_location : String)
    (net : String → GeoResponse) : Except PyError UpdateRun :=
  match get_coordinates pickup_location net with
  | .error e => .error e
  | .ok (pickup_lat, pickup_lon) =>
    match get_coordinates dropoff_location net with
    | .error e => .error e
    | .ok (dropoff_lat, dropoff_lon) =>
      if pyTruthy pickup_lat && pyTruthy dropoff_lat then
        .ok { state :=
                { pickup_location := pickup_location
                  dropoff_location := dropoff_location
                  pickup_latitude := pickup_lat
                  pickup_longitude := pickup_lon
                  dropoff_latitude := dropoff_lat
                  dropoff_longitude := dropoff_lon }
              errorMsg := none
              rerun := true }
      else
        .ok { state := s
              errorMsg := some "Could not find coordinates for one or both locations. Try another address."
              rerun := false }

/-- C8: the empty query string is a no-op for the suggestions mode: it
returns an empty suggestion list without making any network call and
without signalling an error. -/
theorem suggestions_empty_query_noop (net : String → GeoResponse) :
    get_suggestions "" net = { suggestions := [], requests := [] } := rfl

/-- C3: for every geocoding response whose first feature has center
`[lon, lat]`, `get_coordinates` returns the pair with the swap applied
exactly once: latitude `lat`, longitude `lon`. -/
theorem coordinates_swap_once (loc pn : String) (lonv latv : ℚ)
    (rest : List GeoFeature) (net : String → GeoResponse)
    (h : net (geocodeURL loc) = ⟨200, some (⟨pn, [lonv, latv]⟩ :: rest)⟩) :
    get_coordinates loc net = .ok (some latv, some lonv) := by
  simp [get_coordinates, h]

/-- Witness for C3: a mocked response for "Times Square, New York" with
center `[-73.9855, 40.7580]` resolves to latitude 40.7580 and longitude
-73.9855. -/
theorem coordinates_swap_once_witness :
    get_coordinates "Times Square, New York"
        (fun _ => ⟨200, some [⟨"Times Square, New York", [(-73.9855 : ℚ), (40.7580 : ℚ)]⟩]⟩) =
      .ok (some (40.7580 : ℚ), some (-73.9855 : ℚ)) :=
  coordinates_swap_once "Times Square, New York" "Times Square, New York"
    (-73.9855 : ℚ) (40.7580 : ℚ) [] _ rfl

/-- C6: a geocoding response with a non-success status, a missing
`features` key, or zero candidate features makes the resolver yield the
unresolved pair `(None, None)` without raising. -/
theorem coordinates_unresolved_soft (loc : String) (net : String → GeoResponse)
    (h : (net (geocodeURL loc)).status_code ≠ 200 ∨
         (net (geocodeURL loc)).features = none ∨
         (net (geocodeURL loc)).features = some []) :
    get_coordinates loc net = .ok (none, none) := by
  unfold get_coordinates
  rcases h with h | h | h <;> simp [h]

/-- Witness for C6: a 200 response with zero features resolves to
`(None, None)`, and so does a 404 response. -/
theorem coordinates_unresolved_soft_witness :
    get_coordinates "Atlantis" (fun _ => ⟨200, some []⟩) = .ok (none, none) ∧
    get_coordinates "Atlantis" (fun _ => ⟨404, some [⟨"x", [1, 2]⟩]⟩) = .ok (none, none) :=
  ⟨coordinates_unresolved_soft "Atlantis" _ (Or.inr (Or.inr rfl)),
   coordinates_unresolved_soft "Atlantis" _ (Or.inl (by decide))⟩

/-- C10: the Update Locations success test is truthiness of the two
latitudes only, so a resolution whose latitude is exactly 0 is sent down
the error branch: the error message is shown and the session state is
returned unchanged, even though the geocoding lookup succeeded. -/
theorem update_zero_latitude_error_branch (s : SessionState) (pl dl : String)
    (net : String → GeoResponse) (plat plon dlat dlon : Option ℚ)
    (hp : get_coordinates pl net = .ok (plat, plon))
    (hd : get_coordinates dl net = .ok (dlat, dlon))
    (h0 : plat = some 0 ∨ dlat = some 0) :
    updateLocations s pl dl net =
      .ok { state := s
            errorMsg := some "Could not find coordinates for one or both locations. Try another address."
            rerun := false } := by
  rcases h0 with h0 | h0 <;> subst h0 <;> simp [updateLocations, hp, hd, pyTruthy]

/-- Witness for C10: both locations resolve successfully to the point
with latitude 0 and longitude 5, and the handler still takes the error
branch with the state unchanged. -/
theorem update_zero_latitude_error_branch_witness :
    get_coordinates "a" (fun _ => ⟨200, some [⟨"Null Island", [(5 : ℚ), 0]⟩]⟩) =
      .ok (some 0, some 5) ∧
    updateLocations ⟨"p", "d", some 1, some 2, some 3, some 4⟩ "a" "b"
        (fun _ => ⟨200, some [⟨"Null Island", [(5 : ℚ), 0]⟩]⟩) =
      .ok { state := ⟨"p", "d", some 1, some 2, some 3, some 4⟩
            errorMsg := some "Could not find coordinates for one or both locations. Try another address."
            rerun := false } :=
  ⟨rfl,
   update_zero_latitude_error_branch ⟨"p", "d", some 1, some 2, some 3, some 4⟩
     "a" "b" _ (some 0) (some 5) (some 0) (some 5) rfl rfl (Or.inl rfl)⟩

/-- Exhaustive case analysis of one Update Locations run: either a
resolution raised, or the error branch ran and returned the state
unchanged, or both latitudes were truthy and all six fields were written
from the two resolutions. -/
theorem updateLocations_cases (s : SessionState) (pl dl : String)
    (net : String → GeoResponse) :
    (∃ e, updateLocations s pl dl net = .error e) ∨
    updateLocations s pl dl net =
      .ok { state := s
            errorMsg := some "Could not find coordinates for one or both locations. Try another address."
            rerun := false } ∨
    (∃ plat plon dlat dlon,
      get_coordinates pl net = .ok (plat, plon) ∧
      get_coordinates dl net = .ok (dlat, dlon) ∧
      pyTruthy plat = true ∧ pyTruthy dlat = true ∧
      updateLocations s pl dl net =
        .ok { state := ⟨pl, dl, plat, plon, dlat, dlon⟩
              errorMsg := none
              rerun := true }) := by
  unfold updateLocations
  rcases hp : get_coordinates pl net with e | ⟨plat, plon⟩
  · exact Or.inl ⟨e, rfl⟩
  rcases hd : get_coordinates dl net with e2 | ⟨dlat, dlon⟩
  · exact Or.inl ⟨e2, rfl⟩
  by_cases hc : (pyTruthy plat && pyTruthy dlat) = true
  · rcases Bool.and_eq_true_iff.mp hc with ⟨hc1, hc2⟩
    exact Or.inr (Or.inr ⟨plat, plon, dlat, dlon, rfl, rfl, hc1, hc2, by simp [hc]⟩)
  · exact Or.inr (Or.inl (by simp [hc]))

/-- C9: the Update Locations handler is atomic: when either location
resolves to the unresolved pair the state is returned unchanged, and in
general any non-raising run either leaves the state unchanged or writes
all six session fields together from the two resolutions. -/
theorem update_locations_atomic (s : SessionState) (pl dl : String)
    (net : String → GeoResponse) :
    (∀ r, get_coordinates pl net = .ok (none, none) →
        updateLocations s pl dl net = .ok r → r.state = s) ∧
    (∀ r, get_coordinates dl net = .ok (none, none) →
        updateLocations s pl dl net = .ok r → r.state = s) ∧
    (∀ r, updateLocations s pl dl net = .ok r →
        r.state = s ∨
        (r.state.pickup_location = pl ∧ r.state.dropoff_location = dl ∧
         get_coordinates pl net = .ok (r.state.pickup_latitude, r.state.pickup_longitude) ∧
         get_coordinates dl net = .ok (r.state.dropoff_latitude, r.state.dropoff_longitude))) := by
  rcases updateLocations_cases s pl dl net with ⟨e, he⟩ | he |
    ⟨plat, plon, dlat, dlon, hp, hd, hc1, hc2, he⟩
  · refine ⟨?_, ?_, ?_⟩ <;> intro r
    · intro _ h2
      rw [he] at h2
      exact Except.noConfusion h2
    · intro _ h2
      rw [he] at h2
      exact Except.noConfusion h2
    · intro h2
      rw [he] at h2
      exact Except.noConfusion h2
  · refine ⟨?_, ?_, ?_⟩ <;> intro r
    · intro _ h2
      rw [he] at h2
      injection h2 with h2
      rw [← h2]
    · intro _ h2
      rw [he] at h2
      injection h2 with h2
      rw [← h2]
    · intro h2
      rw [he] at h2
      injection h2 with h2
      rw [← h2]
      exact Or.inl rfl
  · refine ⟨?_, ?_, ?_⟩ <;> intro r
    · intro h1 _
      rw [hp] at h1
      injection h1 with h1
      injection h1 with h1a h1b
      rw [h1a] at hc1
      exact Bool.noConfusion hc1
    · intro h1 _
      rw [hd] at h1
      injection h1 with h1
      injection h1 with h1a h1b
      rw [h1a] at hc2
      exact Bool.noConfusion hc2
    · intro h2
      rw [he] at h2
      injection h2 with h2
      rw [← h2]
      exact Or.inr ⟨rfl, rfl, hp, hd⟩

/-- Witness for C9: a responder with zero features makes both locations
resolve to the unresolved pair, and the handler returns the error run
with the session state unchanged. -/
theorem update_locations_atomic_witness :
    get_coordinates "a" (fun _ => ⟨200, some []⟩) = .ok (none, none) ∧
    updateLocations ⟨"p", "d", some 1, some 2, some 3, some 4⟩ "a" "b"
        (fun _ => ⟨200, some []⟩) =
      .ok { state := ⟨"p", "d", some 1, some 2, some 3, some 4⟩
            errorMsg := some "Could not find coordinates for one or both locations. Try another address."
            rerun := false } ∧
    ({ state := ⟨"p", "d", some 1, some 2, some 3, some 4⟩
       errorMsg := some "Could not find coordinates for one or both locations. Try another address."
       rerun := false } : UpdateRun).state = ⟨"p", "d", some 1, some 2, some 3, some 4⟩ :=
  ⟨rfl, rfl,
   (update_locations_atomic ⟨"p", "d", some 1, some 2, some 3, some 4⟩ "a" "b"
     (fun _ => ⟨200, some []⟩)).1 _ rfl rfl⟩

/-- C4: a fare-endpoint response with a non-success HTTP status makes the
handler issue exactly one request and display an error message that
contains the status code and the response body. -/
theorem predict_status_error (a b dt : String) (plat plon dlat dlon : ℚ)
    (pc : Nat) (resp : FareResponse) (h : resp.status_code ≠ 200) :
    (predictFare ⟨a, b, some plat, some plon, some dlat, some dlon⟩ dt pc
        (fun _ => .ok resp)).requests.length = 1 ∧
    (predictFare ⟨a, b, some plat, some plon, some dlat, some dlon⟩ dt pc
        (fun _ => .ok resp)).outcome =
      .statusError resp.status_code resp.text
        ("Error: " ++ toString resp.status_code ++ " - " ++ resp.text) ∧
    (∃ u v, "Error: " ++ toString resp.status_code ++ " - " ++ resp.text =
        u ++ toString resp.status_code ++ v) ∧
    (∃ u v, "Error: " ++ toString resp.status_code ++ " - " ++ resp.text =
        u ++ resp.text ++ v) := by
  refine ⟨rfl, by simp [predictFare, h], ?_, ?_⟩
  · exact ⟨"Error: ", " - " ++ resp.text, by rw [String.append_assoc]⟩
  · exact ⟨"Error: " ++ toString resp.status_code ++ " - ", "", by rw [String.append_empty]⟩

/-- Witness for C4: a mocked 500 response yields exactly one request and
the message with the code and the body. -/
theorem predict_status_error_witness :
    (500 : Nat) ≠ 200 ∧
    (predictFare ⟨"p", "d", some 1, some 2, some 3, some 4⟩ "2025-01-01 12:00:00" 1
        (fun _ => .ok ⟨500, "Internal Server Error", .ok []⟩)).requests.length = 1 ∧
    (predictFare ⟨"p", "d", some 1, some 2, some 3, some 4⟩ "2025-01-01 12:00:00" 1
        (fun _ => .ok ⟨500, "Internal Server Error", .ok []⟩)).outcome =
      .statusError 500 "Internal Server Error" "Error: 500 - Internal Server Error" := by
  have h := predict_status_error "p" "d" "2025-01-01 12:00:00" 1 2 3 4 1
    ⟨500, "Internal Server Error", .ok []⟩ (by decide)
  refine ⟨by decide, h.1, ?_⟩
  rw [h.2.1]
  rfl

/-- C5: a success-status response whose JSON body lacks the `fare` field
makes the handler signal the malformed-response error, a branch distinct
from the non-success-status branch and from the transport branch. -/
theorem predict_malformed_distinct (a b dt body : String)
    (plat plon dlat dlon : ℚ) (pc : Nat) (j : List (String × ℚ))
    (h : jsonLookup j "fare" = none) :
    (predictFare ⟨a, b, some plat, some plon, some dlat, some dlon⟩ dt pc
        (fun _ => .ok ⟨200, body, .ok j⟩)).outcome =
      .malformed "Error: API response did not contain a fare value." ∧
    (∀ c t m, PredictOutcome.malformed "Error: API response did not contain a fare value." ≠
        .statusError c t m) ∧
    (∀ m, PredictOutcome.malformed "Error: API response did not contain a fare value." ≠
        .transport m) := by
  refine ⟨by simp [predictFare, h], ?_, ?_⟩
  · intro c t m heq
    exact PredictOutcome.noConfusion heq
  · intro m heq
    exact PredictOutcome.noConfusion heq

/-- Witness for C5: a 200 response whose JSON object has no `fare` key
produces the malformed-response branch. -/
theorem predict_malformed_distinct_witness :
    jsonLookup [("prediction", (5 : ℚ))] "fare" = none ∧
    (predictFare ⟨"p", "d", some 1, some 2, some 3, some 4⟩ "2025-01-01 12:00:00" 1
        (fun _ => .ok ⟨200, "", .ok [("prediction", (5 : ℚ))]⟩)).outcome =
      .malformed "Error: API response did not contain a fare value." :=
  ⟨rfl,
   (predict_malformed_distinct "p" "d" "2025-01-01 12:00:00" "" 1 2 3 4 1
     [("prediction", (5 : ℚ))] rfl).1⟩

/-- C7: a success response carrying a numeric fare displays the fare
rounded to two decimal places. -/
theorem predict_success_rounds (a b dt body : String)
    (plat plon dlat dlon fare : ℚ) (pc : Nat) (j : List (String × ℚ))
    (h : jsonLookup j "fare" = some fare) :
    (predictFare ⟨a, b, some plat, some plon, some dlat, some dlon⟩ dt pc
        (fun _ => .ok ⟨200, body, .ok j⟩)).outcome =
      .success (roundHalfEven2 fare)
        ("Predicted Fare: **$" ++ pyStr (roundHalfEven2 fare) ++ "**") := by
  simp [predictFare, h]

set_option maxRecDepth 8000 in
/-- Witness for C7: a mocked response with fare 23.456 displays exactly
"23.46". -/
theorem predict_success_rounds_witness :
    jsonLookup [("fare", mkRat 23456 1000)] "fare" = some (mkRat 23456 1000) ∧
    roundHalfEven2 (mkRat 23456 1000) = mkRat 2346 100 ∧
    (predictFare ⟨"p", "d", some 1, some 2, some 3, some 4⟩ "2025-01-01 12:00:00" 1
        (fun _ => .ok ⟨200, "", .ok [("fare", mkRat 23456 1000)]⟩)).outcome =
      .success (mkRat 2346 100) "Predicted Fare: **$23.46**" := by
  have h := predict_success_rounds "p" "d" "2025-01-01 12:00:00" "" 1 2 3 4
    (mkRat 23456 1000) 1 [("fare", mkRat 23456 1000)] rfl
  have hs : mkRat 23456 1000 * 100 = mkRat 23456 10 := by
    rw [Rat.mkRat_eq_div, Rat.mkRat_eq_div]
    norm_num
  have hround : roundHalfEven2 (mkRat 23456 1000) = mkRat 2346 100 := by
    rw [roundHalfEven2, hs]
    decide
  refine ⟨rfl, hround, ?_⟩
  rw [h, hround]
  decide

/-- C1: on a script rerun triggered by the Predict Fare button while any
of the four session coordinates is null, the null-coordinate warning is
rendered and the handler constructs and sends no fare request (the
`float` conversion of the null value raises before the request line). -/
theorem predict_refuses_null_coordinate (s : SessionState) (dt : String)
    (pc : Nat) (net : String → FareNet) (h : coordsMissing s = true) :
    scriptRun s true dt pc net =
      { warning := some "Invalid location coordinates. Please update the locations."
        predict := some { requests := [], outcome := .crash .typeError } } := by
  obtain ⟨a, b, plat, plon, dlat, dlon⟩ := s
  cases plat <;> cases plon <;> cases dlat <;> cases dlon <;>
    simp_all [scriptRun, predictFare, coordsMissing]

/-- Witness for C1: a state with a null pickup latitude and a responder
that would answer any request: the warning is shown and no request is
issued. -/
theorem predict_refuses_null_coordinate_witness :
    coordsMissing ⟨"p", "d", none, some 2, some 3, some 4⟩ = true ∧
    scriptRun ⟨"p", "d", none, some 2, some 3, some 4⟩ true "2025-01-01 12:00:00" 1
        (fun _ => .ok ⟨200, "", .ok [("fare", (10 : ℚ))]⟩) =
      { warning := some "Invalid location coordinates. Please update the locations."
        predict := some { requests := [], outcome := .crash .typeError } } :=
  ⟨rfl,
   predict_refuses_null_coordinate ⟨"p", "d", none, some 2, some 3, some 4⟩
     "2025-01-01 12:00:00" 1 _ rfl⟩

/-- Merging of two adjacent string literals at the head of a
right-associated append chain. -/
theorem append_append_left (a b c : String) (h : a ++ b = c) (x : String) :
    a ++ (b ++ x) = c ++ x := by
  rw [← String.append_assoc, h]

set_option maxRecDepth 8000 in
/-- C2: the fare request URL is exactly the endpoint followed by the six
`k=v` pairs in order, each coordinate serialized under its correct
longitude/latitude parameter name, joined by `&`. -/
theorem fare_url_exact (dt : String) (plon plat dlon dlat : ℚ) (pc : Nat) :
    fareURL dt plon plat dlon dlat pc =
      "https://taxifare.lewagon.ai/predict?pickup_datetime=" ++ dt ++
      "&pickup_longitude=" ++ pyStr plon ++
      "&pickup_latitude=" ++ pyStr plat ++
      "&dropoff_longitude=" ++ pyStr dlon ++
      "&dropoff_latitude=" ++ pyStr dlat ++
      "&passenger_count=" ++ toString pc := by
  have h1 : fareURL dt plon plat dlon dlat pc =
      "https://taxifare.lewagon.ai/predict" ++ "?" ++
        (("pickup_datetime" ++ "=" ++ dt) ++ "&" ++
         ("pickup_longitude" ++ "=" ++ pyStr plon) ++ "&" ++
         ("pickup_latitude" ++ "=" ++ pyStr plat) ++ "&" ++
         ("dropoff_longitude" ++ "=" ++ pyStr dlon) ++ "&" ++
         ("dropoff_latitude" ++ "=" ++ pyStr dlat) ++ "&" ++
         ("passenger_count" ++ "=" ++ toString pc)) := rfl
  rw [h1]
  simp only [String.append_assoc]
  rw [append_append_left "https://taxifare.lewagon.ai/predict" "?"
        "https://taxifare.lewagon.ai/predict?" rfl,
      append_append_left "https://taxifare.lewagon.ai/predict?" "pickup_datetime"
        "https://taxifare.lewagon.ai/predict?pickup_datetime" rfl,
      append_append_left "https://taxifare.lewagon.ai/predict?pickup_datetime" "="
        "https://taxifare.lewagon.ai/predict?pickup_datetime=" rfl,
      append_append_left "&" "pickup_longitude" "&pickup_longitude" rfl,
      append_append_left "&pickup_longitude" "=" "&pickup_longitude=" rfl,
      append_append_left "&" "pickup_latitude" "&pickup_latitude" rfl,
      append_append_left "&pickup_latitude" "=" "&pickup_latitude=" rfl,
      append_append_left "&" "dropoff_longitude" "&dropoff_longitude" rfl,
      append_append_left "&dropoff_longitude" "=" "&dropoff_longitude=" rfl,
      append_append_left "&" "dropoff_latitude" "&dropoff_latitude" rfl,
      append_append_left "&dropoff_latitude" "=" "&dropoff_latitude=" rfl,
      append_append_left "&" "passenger_count" "&passenger_count" rfl,
      append_append_left "&passenger_count" "=" "&passenger_count=" rfl]

end TaxiFare
